import Mathlib

/-!
# react-weather-app: the controller of `src/App.js`

A shallow embedding of the `App` component's controller logic: the six state
cells of lines 6-11, `fetchWeather` (lines 17-57), `handleSubmit` (lines 68-71),
`toggleUnit` (lines 74-80) and the forecast section of the view (lines 171-177).

A call of an asynchronous function is embedded as the ordered list of effects it
performs (state writes and network requests); the state that results is obtained
by replaying the effects.  The answers of the network are an input of the model.
A call is suspended at each request; `Config` keeps the calls in flight, so that
an action can start while another call waits, as the component allows.
-/

namespace WeatherApp

/-! ## Strings -/

/-- Whether `needle` occurs in `hay` as a contiguous block (on character lists). -/
def includesChars (needle : List Char) : List Char → Bool
  | [] => needle.isPrefixOf []
  | c :: hay => needle.isPrefixOf (c :: hay) || includesChars needle hay

/-- JavaScript `hay.includes(needle)`. -/
def includes (hay needle : String) : Bool :=
  includesChars needle.data hay.data

/-- JavaScript `a || b` on an optional string: `undefined` and `''` are falsy. -/
def orElse (a : Option String) (b : String) : String :=
  match a with
  | none => b
  | some m => if m = "" then b else m

/-! ## Provider responses -/

/-- The `cod` field of a parsed response: a number, a string, or anything else
(missing, `null`, ...).  Only `=== 200` and `=== '200'` are ever asked of it. -/
inductive Cod where
  | num (n : Int)
  | str (s : String)
  | other
  deriving DecidableEq, Repr

/-- The parsed body of the current-conditions response (`currentWeatherData`).
`message` is `none` when the field is missing.  The numeric display fields
(`main.temp`, `wind.speed`, ...) are only read by the markup and are left out;
the object is stored and compared as a whole. -/
structure WeatherJson where
  cod : Cod
  message : Option String
  name : String
  country : String
  description : String
  icon : String
  deriving DecidableEq, Repr

/-- One element of `forecastJson.list`.  `dt_txt` is `none` when the field is
missing or not a string, in which case `item.dt_txt.includes` throws. -/
structure ForecastItem where
  dt : Int
  dt_txt : Option String
  description : String
  icon : String
  deriving DecidableEq, Repr

/-- The parsed body of the forecast response (`forecastJson`).  `list` is `none`
when the field is missing, in which case `forecastJson.list.filter` throws. -/
structure ForecastJson where
  cod : Cod
  message : Option String
  list : Option (List ForecastItem)
  deriving DecidableEq, Repr

/-- What one `fetch` followed by `.json()` does: `await fetch(url)` rejects
(transport failure), `await response.json()` rejects (malformed JSON), or a
body is parsed.  The string is the `message` of the error thrown. -/
inductive Reply (α : Type) where
  | fetchThrows (message : String)
  | jsonThrows (message : String)
  | parsed (data : α)
  deriving DecidableEq, Repr

/-- The environment of one call of `fetchWeather`: the answers to its two
requests, and the message of the `TypeError` the engine raises when the named
property is read from a value that does not have it. -/
structure World where
  current : Reply WeatherJson
  forecast : Reply ForecastJson
  typeError : String → String

/-! ## State and effects -/

/-- The six `useState` cells of `App` (lines 6-11). -/
structure State where
  city : String
  weatherData : Option WeatherJson
  forecastData : Option (List ForecastItem)
  loading : Bool
  error : Option String
  unit : String
  deriving DecidableEq, Repr

/-- The state of the first render. -/
def State.initial : State :=
  { city := "", weatherData := none, forecastData := none,
    loading := false, error := none, unit := "metric" }

/-- What the controller does to the outside: a state setter called with a value,
or `fetch(url)`. -/
inductive Effect where
  | setCity (c : String)
  | setWeatherData (d : Option WeatherJson)
  | setForecastData (f : Option (List ForecastItem))
  | setLoading (b : Bool)
  | setError (e : Option String)
  | setUnit (u : String)
  | fetch (url : String)
  | consoleError (label message : String)
  deriving DecidableEq, Repr

/-- One effect applied to the state; a request or a log line leaves it alone. -/
def Effect.apply (s : State) : Effect → State
  | .setCity c => { s with city := c }
  | .setWeatherData d => { s with weatherData := d }
  | .setForecastData f => { s with forecastData := f }
  | .setLoading b => { s with loading := b }
  | .setError e => { s with error := e }
  | .setUnit u => { s with unit := u }
  | .fetch _ => s
  | .consoleError _ _ => s

/-- The state after a list of effects, applied in order. -/
def run (s : State) (es : List Effect) : State :=
  es.foldl Effect.apply s

/-- The URLs requested by a list of effects, in order. -/
def requests : List Effect → List String
  | [] => []
  | .fetch url :: es => url :: requests es
  | _ :: es => requests es

/-- The states in which the function is suspended on a network call: the state
at each `fetch`. -/
def suspended (s : State) : List Effect → List State
  | [] => []
  | .fetch _ :: es => s :: suspended s es
  | e :: es => suspended (e.apply s) es

/-! ## `fetchWeather` -/

/-- Line 14. -/
def API_KEY : String := "4e4bfff842d5ceb19af68d79a4170883"

/-- Line 27. -/
def currentWeatherUrl (selectedCity unit : String) : String :=
  "https://api.openweathermap.org/data/2.5/weather?q=" ++ selectedCity ++
    "&units=" ++ unit ++ "&appid=" ++ API_KEY

/-- Line 37. -/
def forecastUrl (selectedCity unit : String) : String :=
  "https://api.openweathermap.org/data/2.5/forecast?q=" ++ selectedCity ++
    "&units=" ++ unit ++ "&appid=" ++ API_KEY

/-- The callback of line 46-47 on an item that has a `dt_txt`. -/
def isNoon (item : ForecastItem) : Bool :=
  match item.dt_txt with
  | none => false
  | some t => includes t "12:00:00"

/-- Lines 46-48: `list.filter((item) => item.dt_txt.includes('12:00:00'))`.
The callback runs on the items in order; an item without a string `dt_txt`
makes it throw. -/
def dailyForecasts (typeError : String → String) :
    List ForecastItem → Except String (List ForecastItem)
  | [] => .ok []
  | item :: rest =>
    match item.dt_txt with
    | none => .error (typeError "includes")
    | some t =>
      match dailyForecasts typeError rest with
      | .error m => .error m
      | .ok kept => .ok (if includes t "12:00:00" then item :: kept else kept)

/-- Lines 38-49, the second half of the `try` block: the effects performed and
the message of the error thrown, if one is. -/
def tryForecast (unit : String) (w : World) (selectedCity : String) :
    List Effect × Option String :=
  let issued := [Effect.fetch (forecastUrl selectedCity unit)]
  match w.forecast with
  | .fetchThrows m => (issued, some m)
  | .jsonThrows m => (issued, some m)
  | .parsed forecastJson =>
    if forecastJson.cod ≠ Cod.str "200" then
      (issued, some (orElse forecastJson.message "Forecast data not available."))
    else
      match forecastJson.list with
      | none => (issued, some (w.typeError "filter"))
      | some list =>
        match dailyForecasts w.typeError list with
        | .error m => (issued, some m)
        | .ok daily => (issued ++ [Effect.setForecastData (some daily)], none)

/-- Lines 26-49, the `try` block: the effects performed and the message of the
error thrown, if one is. -/
def tryBlock (unit : String) (w : World) (selectedCity : String) :
    List Effect × Option String :=
  let issued := [Effect.fetch (currentWeatherUrl selectedCity unit)]
  match w.current with
  | .fetchThrows m => (issued, some m)
  | .jsonThrows m => (issued, some m)
  | .parsed currentWeatherData =>
    if currentWeatherData.cod ≠ Cod.num 200 then
      (issued, some (orElse currentWeatherData.message "City not found or API error."))
    else
      let rest := tryForecast unit w selectedCity
      (issued ++ [Effect.setWeatherData (some currentWeatherData)] ++ rest.1, rest.2)

/-- Line 53: the text stored in `error`. -/
def errorText (message : String) : String :=
  "Error: " ++ message ++ ". Please check the city name or your API key."

/-- Lines 51-53, the `catch` block, entered with the message of the error
thrown by the `try` block, if one was. -/
def catchBlock : Option String → List Effect
  | none => []
  | some m =>
    [Effect.consoleError "Failed to fetch weather data:" m,
     Effect.setError (some (errorText m))]

/-- Lines 17-57.  `unit` is the value captured by the closure: `useCallback`
builds the function in a render, from that render's `unit` (line 57). -/
def fetchWeather (unit : String) (w : World) (selectedCity : String) : List Effect :=
  if selectedCity = "" then []
  else
    let attempt := tryBlock unit w selectedCity
    [Effect.setLoading true, Effect.setError none,
     Effect.setWeatherData none, Effect.setForecastData none]
      ++ attempt.1 ++ catchBlock attempt.2 ++ [Effect.setLoading false]

/-! ## Event handlers and view -/

/-- Lines 68-71, in the render whose state is `s`. -/
def handleSubmit (w : World) (s : State) : List Effect :=
  fetchWeather s.unit w s.city

/-- The updater of line 75. -/
def flipUnit (prevUnit : String) : String :=
  if prevUnit = "metric" then "imperial" else "metric"

/-- Lines 74-80, in the render whose state is `s`: `weatherData`, `city` and
`fetchWeather` are the ones of that render, so the function called on line 78
is the closure built from `s.unit`. -/
def toggleUnit (w : World) (s : State) : List Effect :=
  Effect.setUnit (flipUnit s.unit) ::
    (if s.weatherData.isSome then fetchWeather s.unit w s.city else [])

/-- Lines 171-177: the forecast entries the view lays out,
`forecastData.slice(0, 5)` when `forecastData` is there and not empty. -/
def displayedForecast (s : State) : List ForecastItem :=
  match s.forecastData with
  | none => []
  | some f => if f.length > 0 then f.take 5 else []

/-! ## Actions and reachable configurations -/

/-- One completed user action: typing a city (line 105), a call of
`fetchWeather`, or a click on the unit button. -/
inductive Action where
  | setCity (c : String)
  | fetchWeather (w : World) (selectedCity : String)
  | toggleUnit (w : World)

/-- The effects of an action started in state `s`. -/
def Action.effects (s : State) : Action → List Effect
  | .setCity c => [Effect.setCity c]
  | .fetchWeather w selectedCity => WeatherApp.fetchWeather s.unit w selectedCity
  | .toggleUnit w => WeatherApp.toggleUnit w s

/-- The effects a call performs up to and including its next request, and the
effects left for after the response arrives (`none` when the call runs to its
end without another request). -/
def untilFetch : List Effect → List Effect × Option (List Effect)
  | [] => ([], none)
  | .fetch url :: rest => ([Effect.fetch url], some rest)
  | e :: rest => (e :: (untilFetch rest).1, (untilFetch rest).2)

/-- The controller between two events: the state of the last render, and the
calls in flight, each given by the effects it has left once the response it
waits for arrives.  Nothing in `App` stops an action from starting while calls
are in flight, so there can be several. -/
structure Config where
  state : State
  pending : List (List Effect)
  deriving DecidableEq

/-- The first render: initial state, nothing in flight. -/
def Config.initial : Config :=
  { state := State.initial, pending := [] }

/-- A call with effects `es` runs from state `s` until it is suspended on a
request or ends, next to the calls `others` that stay suspended. -/
def Config.advance (s : State) (es : List Effect) (others : List (List Effect)) : Config :=
  match (untilFetch es).2 with
  | none => { state := run s (untilFetch es).1, pending := others }
  | some left => { state := run s (untilFetch es).1, pending := left :: others }

/-- The user starts an action: its handler is the one of the last render, and
runs until its first request. -/
def Config.start (c : Config) (a : Action) : Config :=
  Config.advance c.state (a.effects c.state) c.pending

/-- The response awaited by the `i`-th call in flight arrives: that call runs
on, until its next request or its end. -/
def Config.resume (c : Config) (i : Nat) : Config :=
  match c.pending.get? i with
  | none => c
  | some left => Config.advance c.state left (c.pending.eraseIdx i)

/-- The configurations the controller can be in: actions may start at any time,
also while calls are in flight, and responses may arrive in any order. -/
inductive Reachable : Config → Prop where
  | initial : Reachable Config.initial
  | start (c : Config) (a : Action) : Reachable c → Reachable (c.start a)
  | resume (c : Config) (i : Nat) : Reachable c → Reachable (c.resume i)

/-- The configurations reached when no action is started while a call is in
flight. -/
inductive Sequential : Config → Prop where
  | initial : Sequential Config.initial
  | start (c : Config) (a : Action) :
      Sequential c → c.pending = [] → Sequential (c.start a)
  | resume (c : Config) (i : Nat) : Sequential c → Sequential (c.resume i)

/-- Loading: `loading` is set. -/
def State.isLoading (s : State) : Prop := s.loading = true

/-- Failed: `error` is set. -/
def State.isFailed (s : State) : Prop := s.error.isSome = true

/-- Success: no error, and both results are there. -/
def State.isSuccess (s : State) : Prop :=
  s.error = none ∧ s.weatherData.isSome = true ∧ s.forecastData.isSome = true

/-- The forecast response is accepted and its list can be reduced. -/
def ForecastUsable (w : World) : Prop :=
  ∃ f list, w.forecast = .parsed f ∧ f.cod = Cod.str "200" ∧ f.list = some list ∧
    ∀ item ∈ list, item.dt_txt.isSome = true

/-- The current-conditions response is accepted. -/
def CurrentAccepted (w : World) : Prop :=
  ∃ d, w.current = .parsed d ∧ d.cod = Cod.num 200

/-- The outcome invariant the controller keeps: while loading or failed there is
no forecast, and a stored current-conditions response is an accepted one. -/
def State.Consistent (s : State) : Prop :=
  ((s.isLoading ∨ s.isFailed) → s.forecastData = none) ∧
  (∀ d, s.weatherData = some d → d.cod = Cod.num 200)

/-- Where a configuration without overlapping calls stands: nothing is in
flight, or one action is, suspended on a request. -/
def Config.InOneCall (c : Config) : Prop :=
  (c.pending = [] ∧ c.state.Consistent) ∨
  ∃ (s : State) (a : Action) (pre : List Effect) (url : String) (left : List Effect),
    s.Consistent ∧ a.effects s = pre ++ Effect.fetch url :: left ∧
    c.state = run s pre ∧ c.pending = [left]

/-- Every current-conditions response stored, or still to be stored by a call
in flight, is an accepted one. -/
def Config.WeatherAccepted (c : Config) : Prop :=
  (∀ d, c.state.weatherData = some d → d.cod = Cod.num 200) ∧
  ∀ left ∈ c.pending, ∀ d, Effect.setWeatherData (some d) ∈ left → d.cod = Cod.num 200

/-! ## Calendar dates -/

/-- The calendar date of a timestamp text: its first ten characters, the
`YYYY-MM-DD` part. -/
def calendarDate (t : String) : String :=
  ⟨t.data.take 10⟩

/-- The text has the provider's shape `YYYY-MM-DD HH:MM:SS`. -/
def isTimestamp (t : String) : Bool :=
  match t.data with
  | [y1, y2, y3, y4, a, m1, m2, b, d1, d2, sp, h1, h2, c1, n1, n2, c2, s1, s2] =>
    y1.isDigit && y2.isDigit && y3.isDigit && y4.isDigit && a == '-' &&
    m1.isDigit && m2.isDigit && b == '-' && d1.isDigit && d2.isDigit && sp == ' ' &&
    h1.isDigit && h2.isDigit && c1 == ':' && n1.isDigit && n2.isDigit && c2 == ':' &&
    s1.isDigit && s2.isDigit
  | _ => false

/-! ## Sample data -/

/-- The current-conditions response of the "Paris" scenario. -/
def parisWeather : WeatherJson :=
  { cod := Cod.num 200, message := none, name := "Paris", country := "FR",
    description := "clear sky", icon := "01d" }

/-- A rejected current-conditions response with the provider's text. -/
def notFoundWeather : WeatherJson :=
  { cod := Cod.num 404, message := some "city not found", name := "", country := "",
    description := "", icon := "" }

/-- A forecast entry with the given timestamp and text. -/
def entryAt (dt : Int) (dt_txt : String) : ForecastItem :=
  { dt := dt, dt_txt := some dt_txt, description := "clear sky", icon := "01d" }

/-- The forecast list of the three-entry scenario. -/
def scenarioList : List ForecastItem :=
  [entryAt 1704110400 "2024-01-01 12:00:00", entryAt 1704121200 "2024-01-01 15:00:00",
   entryAt 1704196800 "2024-01-02 12:00:00"]

/-- Six noon entries on six consecutive days. -/
def sixNoons : List ForecastItem :=
  [entryAt 1704110400 "2024-01-01 12:00:00", entryAt 1704196800 "2024-01-02 12:00:00",
   entryAt 1704283200 "2024-01-03 12:00:00", entryAt 1704369600 "2024-01-04 12:00:00",
   entryAt 1704456000 "2024-01-05 12:00:00", entryAt 1704542400 "2024-01-06 12:00:00"]

/-- An engine's `TypeError` text. -/
def sampleTypeError (property : String) : String :=
  "Cannot read properties of undefined, reading " ++ property

/-- Both responses accepted, with the given forecast list. -/
def acceptedWorld (list : List ForecastItem) : World :=
  { current := .parsed parisWeather,
    forecast := .parsed { cod := Cod.str "200", message := none, list := some list },
    typeError := sampleTypeError }

/-- Current conditions accepted, forecast rejected without a message. -/
def forecastRejectedWorld : World :=
  { current := .parsed parisWeather,
    forecast := .parsed { cod := Cod.str "404", message := none, list := none },
    typeError := sampleTypeError }

/-- Current conditions rejected with `cod: 404, message: "city not found"`. -/
def notFoundWorld : World :=
  { current := .parsed notFoundWeather,
    forecast := .fetchThrows "Failed to fetch",
    typeError := sampleTypeError }

/-- A state showing Paris in metric units, as a successful query leaves it. -/
def parisShown : State :=
  { city := "Paris", weatherData := some parisWeather,
    forecastData := some [entryAt 1704110400 "2024-01-01 12:00:00"],
    loading := false, error := none, unit := "metric" }

/-- One noon entry listed twice. -/
def repeatedNoon : List ForecastItem :=
  [entryAt 1704110400 "2024-01-01 12:00:00", entryAt 1704110400 "2024-01-01 12:00:00"]

/-- Two noon texts for one day, of different shapes. -/
def sameDayVariants : List ForecastItem :=
  [entryAt 1704110400 "2024-01-01 12:00:00", entryAt 1704110400 "2024-01-01T12:00:00Z"]

/-- Paris typed in. -/
def parisTyped : Config :=
  Config.initial.start (Action.setCity "Paris")

/-- A query for Paris, its current-conditions response accepted, waiting for the
forecast. -/
def awaitingForecast : Config :=
  (parisTyped.start (Action.fetchWeather forecastRejectedWorld "Paris")).resume 0

/-- That query at its end, the forecast response rejected. -/
def failedWithWeather : Config :=
  awaitingForecast.resume 0

/-- Two overlapping queries: the first, with both responses accepted, waits for
its forecast when a second is submitted; the second is rejected (`cod` 404) and
ends; then the forecast of the first arrives. -/
def overlapped : Config :=
  (((((parisTyped.start (Action.fetchWeather (acceptedWorld scenarioList) "Paris")).resume 0).start
    (Action.fetchWeather notFoundWorld "Paris")).resume 0).resume 0)

/-! ## Lemmas on the embedding -/

theorem run_append (s : State) (xs ys : List Effect) :
    run s (xs ++ ys) = run (run s xs) ys := by
  simp [run, List.foldl_append]

theorem requests_append (xs ys : List Effect) :
    requests (xs ++ ys) = requests xs ++ requests ys := by
  induction xs with
  | nil => rfl
  | cons e xs ih => cases e <;> simp [requests, ih]

theorem suspended_append (s : State) (xs ys : List Effect) :
    suspended s (xs ++ ys) = suspended s xs ++ suspended (run s xs) ys := by
  induction xs generalizing s with
  | nil => rfl
  | cons e xs ih => cases e <;> simp [suspended, ih, run, Effect.apply]

theorem includesChars_iff (needle hay : List Char) :
    includesChars needle hay = true ↔ ∃ pre suf, hay = pre ++ needle ++ suf := by
  induction hay with
  | nil =>
    simp only [includesChars, List.isPrefixOf_iff_prefix]
    constructor
    · intro h
      exact ⟨[], [], by simp [List.prefix_nil.mp h]⟩
    · rintro ⟨pre, suf, h⟩
      have h2 : needle = [] := by
        have := congrArg List.length h
        simp at this
        exact List.length_eq_zero.mp (by omega)
      simp [h2]
  | cons c hay ih =>
    simp only [includesChars, Bool.or_eq_true, List.isPrefixOf_iff_prefix, ih]
    constructor
    · rintro (⟨suf, h⟩ | ⟨pre, suf, h⟩)
      · exact ⟨[], suf, by simp [h]⟩
      · exact ⟨c :: pre, suf, by simp [h]⟩
    · rintro ⟨pre, suf, h⟩
      cases pre with
      | nil => exact Or.inl ⟨suf, by simpa using h.symm⟩
      | cons p pre =>
        simp only [List.cons_append, List.cons.injEq] at h
        exact Or.inr ⟨pre, suf, h.2⟩

theorem includes_iff (hay needle : String) :
    includes hay needle = true ↔ ∃ pre suf : String, hay = pre ++ needle ++ suf := by
  unfold includes
  rw [includesChars_iff]
  constructor
  · rintro ⟨pre, suf, h⟩
    exact ⟨⟨pre⟩, ⟨suf⟩, String.ext (by simpa using h)⟩
  · rintro ⟨pre, suf, h⟩
    exact ⟨pre.data, suf.data, by simp [h]⟩

theorem includes_errorText (m : String) : includes (errorText m) m = true :=
  (includes_iff _ _).mpr ⟨_, _, rfl⟩

theorem dailyForecasts_ok (typeError : String → String) (list : List ForecastItem)
    (h : ∀ item ∈ list, item.dt_txt.isSome = true) :
    dailyForecasts typeError list = .ok (list.filter isNoon) := by
  induction list with
  | nil => rfl
  | cons item rest ih =>
    have hi := h item (List.mem_cons_self _ _)
    have hr := ih (fun x hx => h x (List.mem_cons_of_mem _ hx))
    obtain ⟨t, ht⟩ := Option.isSome_iff_exists.mp hi
    simp only [dailyForecasts, ht, hr, List.filter_cons, isNoon]

theorem dailyForecasts_eq_filter (typeError : String → String) (list daily : List ForecastItem)
    (h : dailyForecasts typeError list = .ok daily) : daily = list.filter isNoon := by
  induction list generalizing daily with
  | nil => simp [dailyForecasts] at h; simp [h]
  | cons item rest ih =>
    unfold dailyForecasts at h
    cases ht : item.dt_txt with
    | none => simp [ht] at h
    | some t =>
      simp only [ht] at h
      cases hr : dailyForecasts typeError rest with
      | error m => simp [hr] at h
      | ok kept =>
        simp only [hr, Except.ok.injEq] at h
        have := ih kept hr
        subst this
        simp only [List.filter_cons, isNoon, ht]
        split <;> simp_all

theorem dailyForecasts_error (typeError : String → String) (list : List ForecastItem)
    (m : String) (h : dailyForecasts typeError list = .error m) :
    ¬ ∀ item ∈ list, item.dt_txt.isSome = true := by
  intro hall
  rw [dailyForecasts_ok typeError list hall] at h
  cases h

/-- The three ways the second half of the `try` block can go. -/
theorem tryForecast_cases (unit : String) (w : World) (city : String) :
    (∃ m, ¬ ForecastUsable w ∧
      tryForecast unit w city = ([Effect.fetch (forecastUrl city unit)], some m)) ∨
    (∃ f list, w.forecast = .parsed f ∧ f.cod = Cod.str "200" ∧ f.list = some list ∧
      (∀ item ∈ list, item.dt_txt.isSome = true) ∧
      tryForecast unit w city =
        ([Effect.fetch (forecastUrl city unit),
          Effect.setForecastData (some (list.filter isNoon))], none)) := by
  unfold tryForecast
  cases hf : w.forecast with
  | fetchThrows m =>
    exact Or.inl ⟨m, (by rintro ⟨f, l, h, -⟩; rw [hf] at h; cases h), rfl⟩
  | jsonThrows m =>
    exact Or.inl ⟨m, (by rintro ⟨f, l, h, -⟩; rw [hf] at h; cases h), rfl⟩
  | parsed f =>
    by_cases hcod : f.cod = Cod.str "200"
    · cases hl : f.list with
      | none =>
        refine Or.inl ⟨w.typeError "filter", ?_, by simp [hcod, hl]⟩
        rintro ⟨f2, l, h, -, h3, -⟩
        rw [hf] at h; cases h
        rw [hl] at h3; cases h3
      | some list =>
        cases hd : dailyForecasts w.typeError list with
        | error m =>
          refine Or.inl ⟨m, ?_, by simp [hcod, hl, hd]⟩
          rintro ⟨f2, l, h, -, h3, h4⟩
          rw [hf] at h; cases h
          rw [hl] at h3; cases h3
          exact dailyForecasts_error _ _ _ hd h4
        | ok daily =>
          have hall : ∀ item ∈ list, item.dt_txt.isSome = true := by
            by_contra hne
            push_neg at hne
            obtain ⟨item, hmem, hnone⟩ := hne
            have : ∀ (l : List ForecastItem), item ∈ l →
                ∃ m, dailyForecasts w.typeError l = .error m := by
              intro l
              induction l with
              | nil => intro h; cases h
              | cons x xs ih =>
                intro h
                unfold dailyForecasts
                cases hx : x.dt_txt with
                | none => exact ⟨_, rfl⟩
                | some t =>
                  have hne : item ≠ x := by
                    intro e; subst e; simp [hx] at hnone
                  have hin : item ∈ xs := by
                    rcases List.mem_cons.mp h with h | h
                    · exact absurd h hne
                    · exact h
                  obtain ⟨m, hm⟩ := ih hin
                  exact ⟨m, by simp [hm]⟩
            obtain ⟨m, hm⟩ := this list hmem
            rw [hm] at hd; cases hd
          have := dailyForecasts_eq_filter _ _ _ hd
          subst this
          exact Or.inr ⟨f, list, rfl, hcod, hl, hall, by simp [hcod, hl, hd]⟩
    · refine Or.inl ⟨orElse f.message "Forecast data not available.", ?_, by simp [hcod]⟩
      rintro ⟨f2, l, h, h2, -⟩
      rw [hf] at h; cases h
      exact hcod h2

/-- The three ways a call with a non-empty city can go: the current-conditions
call is not accepted; it is accepted and the forecast is not usable; both are. -/
theorem fetchWeather_cases (unit : String) (w : World) (city : String) (h : city ≠ "") :
    (∃ m, ¬ CurrentAccepted w ∧
      fetchWeather unit w city =
        [Effect.setLoading true, Effect.setError none, Effect.setWeatherData none,
         Effect.setForecastData none, Effect.fetch (currentWeatherUrl city unit),
         Effect.consoleError "Failed to fetch weather data:" m,
         Effect.setError (some (errorText m)), Effect.setLoading false]) ∨
    (∃ d m, w.current = .parsed d ∧ d.cod = Cod.num 200 ∧ ¬ ForecastUsable w ∧
      fetchWeather unit w city =
        [Effect.setLoading true, Effect.setError none, Effect.setWeatherData none,
         Effect.setForecastData none, Effect.fetch (currentWeatherUrl city unit),
         Effect.setWeatherData (some d), Effect.fetch (forecastUrl city unit),
         Effect.consoleError "Failed to fetch weather data:" m,
         Effect.setError (some (errorText m)), Effect.setLoading false]) ∨
    (∃ d f list, w.current = .parsed d ∧ d.cod = Cod.num 200 ∧
      w.forecast = .parsed f ∧ f.cod = Cod.str "200" ∧ f.list = some list ∧
      (∀ item ∈ list, item.dt_txt.isSome = true) ∧
      fetchWeather unit w city =
        [Effect.setLoading true, Effect.setError none, Effect.setWeatherData none,
         Effect.setForecastData none, Effect.fetch (currentWeatherUrl city unit),
         Effect.setWeatherData (some d), Effect.fetch (forecastUrl city unit),
         Effect.setForecastData (some (list.filter isNoon)), Effect.setLoading false]) := by
  unfold fetchWeather tryBlock
  simp only [h, if_false]
  cases hc : w.current with
  | fetchThrows m =>
    exact Or.inl ⟨m, (by rintro ⟨d, h1, -⟩; rw [hc] at h1; cases h1), rfl⟩
  | jsonThrows m =>
    exact Or.inl ⟨m, (by rintro ⟨d, h1, -⟩; rw [hc] at h1; cases h1), rfl⟩
  | parsed d =>
    by_cases hcod : d.cod = Cod.num 200
    · rcases tryForecast_cases unit w city with ⟨m, hnot, hm⟩ | ⟨f, list, hf, hfc, hl, hall, hm⟩
      · exact Or.inr (Or.inl ⟨d, m, rfl, hcod, hnot, by simp [hcod, hm, catchBlock]⟩)
      · exact Or.inr (Or.inr ⟨d, f, list, rfl, hcod, hf, hfc, hl, hall,
          by simp [hcod, hm, catchBlock]⟩)
    · refine Or.inl ⟨orElse d.message "City not found or API error.", ?_,
        by simp [hcod, catchBlock]⟩
      rintro ⟨d2, h1, h2⟩
      rw [hc] at h1; cases h1
      exact hcod h2

/-! ## The claims -/

theorem currentWeatherUrl_ne_forecastUrl (c u c2 u2 : String) :
    currentWeatherUrl c u ≠ forecastUrl c2 u2 := by
  intro h
  have h2 := congrArg (fun x => x.data.get? 40) h
  simp [currentWeatherUrl, forecastUrl, String.data_append] at h2

theorem fetchWeather_request_shape (unit : String) (w : World) (city : String)
    (h : city ≠ "") :
    requests (fetchWeather unit w city) = [currentWeatherUrl city unit] ∨
    requests (fetchWeather unit w city) =
      [currentWeatherUrl city unit, forecastUrl city unit] := by
  rcases fetchWeather_cases unit w city h with
    ⟨m, -, he⟩ | ⟨d, m, -, -, -, he⟩ | ⟨d, f, list, -, -, -, -, -, -, he⟩ <;>
  simp [he, requests]

/-- C3: `fetchWeather` called with the empty city performs no effect at all: the
state that results equals the state before in every field, and no request is
issued. -/
theorem fetchWeather_empty_city (unit : String) (w : World) (s : State) :
    fetchWeather unit w "" = [] ∧
    run s (fetchWeather unit w "") = s ∧
    requests (fetchWeather unit w "") = [] := by
  simp [fetchWeather, run, requests]

/-- C10: for a non-empty city the requests of one call are the current-conditions
request alone, or that request followed by the forecast request; the forecast
request is issued exactly when the current-conditions call returned a response
with `cod` 200; no request occurs twice. -/
theorem fetchWeather_request_trace (unit : String) (w : World) (city : String)
    (h : city ≠ "") :
    (requests (fetchWeather unit w city) = [currentWeatherUrl city unit] ∨
      requests (fetchWeather unit w city) =
        [currentWeatherUrl city unit, forecastUrl city unit]) ∧
    (requests (fetchWeather unit w city) =
        [currentWeatherUrl city unit, forecastUrl city unit] ↔
      ∃ d, w.current = .parsed d ∧ d.cod = Cod.num 200) ∧
    (requests (fetchWeather unit w city) = [currentWeatherUrl city unit] ↔
      ¬ ∃ d, w.current = .parsed d ∧ d.cod = Cod.num 200) ∧
    (requests (fetchWeather unit w city)).Nodup := by
  have hne := currentWeatherUrl_ne_forecastUrl city unit city unit
  rcases fetchWeather_cases unit w city h with
    ⟨m, hnot, he⟩ | ⟨d, m, hc, hcod, -, he⟩ | ⟨d, f, list, hc, hcod, -, -, -, -, he⟩
  · have hnot2 : ¬ ∃ d, w.current = .parsed d ∧ d.cod = Cod.num 200 := hnot
    simp [he, requests, hnot2]
  · have hyes : ∃ d, w.current = .parsed d ∧ d.cod = Cod.num 200 := ⟨d, hc, hcod⟩
    simp [he, requests, hyes, hne]
  · have hyes : ∃ d, w.current = .parsed d ∧ d.cod = Cod.num 200 := ⟨d, hc, hcod⟩
    simp [he, requests, hyes, hne]

/-- Witness of C10: Paris, current conditions accepted and forecast rejected. -/
theorem fetchWeather_request_trace_witness :
    "Paris" ≠ "" ∧
    requests (fetchWeather "metric" forecastRejectedWorld "Paris") =
      [currentWeatherUrl "Paris" "metric", forecastUrl "Paris" "metric"] :=
  ⟨by decide,
   (fetchWeather_request_trace "metric" forecastRejectedWorld "Paris" (by decide)).2.1.mpr
     ⟨parisWeather, rfl, rfl⟩⟩

/-- C9: for a non-empty city and every behaviour of the two calls, the call
starts by setting `loading` and clearing `error`, `weatherData` and
`forecastData`, then issues the first request; `loading` is written once more,
to `false`, as the last effect; at the end `loading` is `false` and the state is
either a success (no error, both results there) or a failure (error set), and
not both. -/
theorem fetchWeather_loading_lifecycle (unit : String) (w : World) (s : State)
    (city : String) (h : city ≠ "") :
    ∃ rest : List Effect,
      fetchWeather unit w city =
        [Effect.setLoading true, Effect.setError none, Effect.setWeatherData none,
         Effect.setForecastData none, Effect.fetch (currentWeatherUrl city unit)]
          ++ rest ++ [Effect.setLoading false] ∧
      (∀ b, Effect.setLoading b ∉ rest) ∧
      (run s [Effect.setLoading true, Effect.setError none, Effect.setWeatherData none,
         Effect.setForecastData none]).loading = true ∧
      (run s [Effect.setLoading true, Effect.setError none, Effect.setWeatherData none,
         Effect.setForecastData none]).weatherData = none ∧
      (run s [Effect.setLoading true, Effect.setError none, Effect.setWeatherData none,
         Effect.setForecastData none]).forecastData = none ∧
      (run s [Effect.setLoading true, Effect.setError none, Effect.setWeatherData none,
         Effect.setForecastData none]).error = none ∧
      (run s (fetchWeather unit w city)).loading = false ∧
      ((run s (fetchWeather unit w city)).isSuccess ∨
        (run s (fetchWeather unit w city)).isFailed) ∧
      ¬ ((run s (fetchWeather unit w city)).isSuccess ∧
        (run s (fetchWeather unit w city)).isFailed) := by
  rcases fetchWeather_cases unit w city h with
    ⟨m, -, he⟩ | ⟨d, m, -, -, -, he⟩ | ⟨d, f, list, -, -, -, -, -, -, he⟩
  · exact ⟨[Effect.consoleError "Failed to fetch weather data:" m,
      Effect.setError (some (errorText m))], by
      simp [he, run, Effect.apply, State.isSuccess, State.isFailed]⟩
  · exact ⟨[Effect.setWeatherData (some d), Effect.fetch (forecastUrl city unit),
      Effect.consoleError "Failed to fetch weather data:" m,
      Effect.setError (some (errorText m))], by
      simp [he, run, Effect.apply, State.isSuccess, State.isFailed]⟩
  · exact ⟨[Effect.setWeatherData (some d), Effect.fetch (forecastUrl city unit),
      Effect.setForecastData (some (list.filter isNoon))], by
      simp [he, run, Effect.apply, State.isSuccess, State.isFailed]⟩

/-- Witness of C9: a rejected first response, starting from a state that shows
an earlier result. -/
theorem fetchWeather_loading_lifecycle_witness :
    "Paris" ≠ "" ∧
    (run parisShown (fetchWeather "metric" notFoundWorld "Paris")).loading = false ∧
    (run parisShown (fetchWeather "metric" notFoundWorld "Paris")).isFailed := by
  obtain ⟨rest, -, -, -, -, -, -, h1, h2, -⟩ :=
    fetchWeather_loading_lifecycle "metric" notFoundWorld parisShown "Paris" (by decide)
  refine ⟨by decide, h1, ?_⟩
  rcases h2 with h2 | h2
  · exact absurd h2.1 (by decide)
  · exact h2

/-- C7: for a non-empty city, two parsed responses and a forecast list whose
entries all carry a `dt_txt`, the call ends in a success exactly when the
current-conditions `cod` is the number 200 and the forecast `cod` is the string
"200", and in a failure otherwise; each rejection alone makes it a failure. -/
theorem fetchWeather_success_iff (unit : String) (w : World) (s : State) (city : String)
    (d : WeatherJson) (f : ForecastJson) (list : List ForecastItem)
    (h : city ≠ "") (hc : w.current = .parsed d) (hf : w.forecast = .parsed f)
    (hl : f.list = some list) (hall : ∀ item ∈ list, item.dt_txt.isSome = true) :
    ((run s (fetchWeather unit w city)).isSuccess ↔
      d.cod = Cod.num 200 ∧ f.cod = Cod.str "200") ∧
    ((run s (fetchWeather unit w city)).isFailed ↔
      ¬ (d.cod = Cod.num 200 ∧ f.cod = Cod.str "200")) ∧
    (d.cod ≠ Cod.num 200 → (run s (fetchWeather unit w city)).isFailed) ∧
    (f.cod ≠ Cod.str "200" → (run s (fetchWeather unit w city)).isFailed) ∧
    ((run s (fetchWeather unit w city)).isSuccess →
      (run s (fetchWeather unit w city)).weatherData = some d ∧
      (run s (fetchWeather unit w city)).forecastData = some (list.filter isNoon)) := by
  rcases fetchWeather_cases unit w city h with
    ⟨m, hnot, he⟩ | ⟨d2, m, hc2, hcod, hnot, he⟩ | ⟨d2, f2, l2, hc2, hcod, hf2, hfc, hl2, -, he⟩
  · have hd : d.cod ≠ Cod.num 200 := fun e => hnot ⟨d, hc, e⟩
    simp [he, run, Effect.apply, State.isSuccess, State.isFailed, hd]
  · rw [hc] at hc2; cases hc2
    have hfcod : f.cod ≠ Cod.str "200" := fun e => hnot ⟨f, list, hf, e, hl, hall⟩
    simp [he, run, Effect.apply, State.isSuccess, State.isFailed, hfcod]
  · rw [hc] at hc2; cases hc2
    rw [hf] at hf2; cases hf2
    rw [hl] at hl2; cases hl2
    simp [he, run, Effect.apply, State.isSuccess, State.isFailed, hcod, hfc]

/-- Witness of C7: both responses accepted for Paris. -/
theorem fetchWeather_success_iff_witness :
    "Paris" ≠ "" ∧
    (run State.initial (fetchWeather "metric" (acceptedWorld scenarioList) "Paris")).isSuccess :=
  ⟨by decide,
   (fetchWeather_success_iff "metric" (acceptedWorld scenarioList) State.initial "Paris"
      parisWeather { cod := Cod.str "200", message := none, list := some scenarioList }
      scenarioList (by decide) rfl rfl rfl (by decide)).1.mpr ⟨rfl, rfl⟩⟩

/-- C4: when both responses are accepted, the stored forecast is the list of the
response's entries whose `dt_txt` contains "12:00:00": a subsequence of the
response's list, holding exactly the matching entries, each as often as the
response has it, in the response's order (so ascending by `dt` when the response
is). -/
theorem fetchWeather_forecast_subsequence (unit : String) (w : World) (s : State)
    (city : String) (d : WeatherJson) (f : ForecastJson) (list : List ForecastItem)
    (h : city ≠ "") (hc : w.current = .parsed d) (hcod : d.cod = Cod.num 200)
    (hf : w.forecast = .parsed f) (hfc : f.cod = Cod.str "200")
    (hl : f.list = some list) (hall : ∀ item ∈ list, item.dt_txt.isSome = true) :
    ∃ daily : List ForecastItem,
      (run s (fetchWeather unit w city)).forecastData = some daily ∧
      daily = list.filter isNoon ∧
      daily.Sublist list ∧
      (∀ item, item ∈ daily ↔
        item ∈ list ∧ ∃ t, item.dt_txt = some t ∧ includes t "12:00:00" = true) ∧
      (∀ item, (∃ t, item.dt_txt = some t ∧ includes t "12:00:00" = true) →
        daily.count item = list.count item) ∧
      (list.Pairwise (fun a b => a.dt ≤ b.dt) → daily.Pairwise (fun a b => a.dt ≤ b.dt)) := by
  have hnoon : ∀ item : ForecastItem,
      isNoon item = true ↔ ∃ t, item.dt_txt = some t ∧ includes t "12:00:00" = true := by
    intro item
    unfold isNoon
    cases item.dt_txt <;> simp
  refine ⟨list.filter isNoon, ?_, rfl, List.filter_sublist list, ?_, ?_, ?_⟩
  · rcases fetchWeather_cases unit w city h with
      ⟨m, hnot, -⟩ | ⟨d2, m, -, -, hnot, -⟩ | ⟨d2, f2, l2, -, -, hf2, -, hl2, -, he⟩
    · exact absurd ⟨d, hc, hcod⟩ hnot
    · exact absurd ⟨f, list, hf, hfc, hl, hall⟩ hnot
    · rw [hf] at hf2; cases hf2
      rw [hl] at hl2; cases hl2
      simp [he, run, Effect.apply]
  · intro item
    rw [List.mem_filter, hnoon]
  · intro item hi
    rw [List.count_filter ((hnoon item).mpr hi)]
  · intro hs
    exact hs.sublist (List.filter_sublist list)

/-- Witness of C4: `dt_txt` values "2024-01-01 12:00:00", "2024-01-01 15:00:00",
"2024-01-02 12:00:00" give the first and the third entry, in that order. -/
theorem fetchWeather_forecast_subsequence_witness :
    (run State.initial (fetchWeather "metric" (acceptedWorld scenarioList) "Paris")).forecastData
      = some [entryAt 1704110400 "2024-01-01 12:00:00",
              entryAt 1704196800 "2024-01-02 12:00:00"] := by
  obtain ⟨daily, h1, h2, -⟩ :=
    fetchWeather_forecast_subsequence "metric" (acceptedWorld scenarioList) State.initial
      "Paris" parisWeather { cod := Cod.str "200", message := none, list := some scenarioList }
      scenarioList (by decide) rfl rfl rfl rfl rfl (by decide)
  rw [h1, h2]
  decide

/-- C8, as the code has it: for a non-empty city, a rejected current-conditions
response stores an error text that contains the provider's message when the
response has one, and "City not found or API error." when it has none (or an
empty one); a rejected forecast response, after an accepted current one, stores
an error text that contains the provider's message when there is one, and
"Forecast data not available." otherwise. -/
theorem fetchWeather_rejection_text (unit : String) (w : World) (s : State)
    (city : String) (h : city ≠ "") :
    (∀ d, w.current = .parsed d → d.cod ≠ Cod.num 200 →
      ∃ e, (run s (fetchWeather unit w city)).error = some e ∧
        (∀ m, d.message = some m → includes e m = true) ∧
        (d.message = none ∨ d.message = some "" →
          includes e "City not found or API error." = true)) ∧
    (∀ d f, w.current = .parsed d → d.cod = Cod.num 200 →
      w.forecast = .parsed f → f.cod ≠ Cod.str "200" →
      ∃ e, (run s (fetchWeather unit w city)).error = some e ∧
        (∀ m, f.message = some m → includes e m = true) ∧
        (f.message = none ∨ f.message = some "" →
          includes e "Forecast data not available." = true)) := by
  have key : ∀ (msg : Option String) (fallback : String),
      (∀ m, msg = some m → includes (errorText (orElse msg fallback)) m = true) ∧
      (msg = none ∨ msg = some "" →
        includes (errorText (orElse msg fallback)) fallback = true) := by
    intro msg fallback
    constructor
    · intro m hm
      subst hm
      by_cases hempty : m = ""
      · subst hempty
        exact (includes_iff _ _).mpr ⟨"", errorText (orElse (some "") fallback), by simp⟩
      · simp only [orElse, hempty, if_false]
        exact includes_errorText m
    · rintro (hm | hm) <;> subst hm <;> simp only [orElse, if_true] <;>
        exact includes_errorText fallback
  constructor
  · intro d hc hcod
    refine ⟨errorText (orElse d.message "City not found or API error."), ?_,
      (key _ _).1, (key _ _).2⟩
    simp [fetchWeather, tryBlock, catchBlock, h, hc, hcod, run, Effect.apply]
  · intro d f hc hcod hf hfc
    refine ⟨errorText (orElse f.message "Forecast data not available."), ?_,
      (key _ _).1, (key _ _).2⟩
    simp [fetchWeather, tryBlock, tryForecast, catchBlock, h, hc, hcod, hf, hfc, run,
      Effect.apply]

/-- Witness of C8: the response `cod: 404, message: "city not found"` gives a
failure whose text contains "city not found". -/
theorem fetchWeather_rejection_text_witness :
    ∃ e, (run State.initial (fetchWeather "metric" notFoundWorld "Paris")).error = some e ∧
      includes e "city not found" = true := by
  obtain ⟨e, h1, h2, -⟩ :=
    (fetchWeather_rejection_text "metric" notFoundWorld State.initial "Paris" (by decide)).1
      notFoundWeather rfl (by decide)
  exact ⟨e, h1, h2 "city not found" rfl⟩

/-- C8 fails as stated: a forecast response rejected without a message stores a
text that holds neither the "city not found ..." wording of the claim nor the
fallback of the current-conditions branch. -/
theorem forecast_rejection_other_text :
    (run State.initial (fetchWeather "metric" forecastRejectedWorld "Paris")).error =
      some "Error: Forecast data not available.. Please check the city name or your API key." ∧
    includes "Error: Forecast data not available.. Please check the city name or your API key."
      "city not found or provider error" = false ∧
    includes "Error: Forecast data not available.. Please check the city name or your API key."
      "City not found or API error." = false ∧
    includes "Error: Forecast data not available.. Please check the city name or your API key."
      "ity not found" = false := by
  decide

/-- C5, as the code has it: when both responses are accepted the state stores
every noon entry of the response, untruncated; the view lays out the first five
of them: at most five, the first five matches when there are five or more, and
all `k` of them when there are `k < 5`. -/
theorem displayedForecast_first_five (unit : String) (w : World) (s : State)
    (city : String) (d : WeatherJson) (f : ForecastJson) (list : List ForecastItem)
    (h : city ≠ "") (hc : w.current = .parsed d) (hcod : d.cod = Cod.num 200)
    (hf : w.forecast = .parsed f) (hfc : f.cod = Cod.str "200")
    (hl : f.list = some list) (hall : ∀ item ∈ list, item.dt_txt.isSome = true) :
    (run s (fetchWeather unit w city)).forecastData = some (list.filter isNoon) ∧
    displayedForecast (run s (fetchWeather unit w city)) = (list.filter isNoon).take 5 ∧
    (displayedForecast (run s (fetchWeather unit w city))).length ≤ 5 ∧
    (displayedForecast (run s (fetchWeather unit w city))).length =
      min 5 (list.filter isNoon).length ∧
    ((list.filter isNoon).length < 5 →
      displayedForecast (run s (fetchWeather unit w city)) = list.filter isNoon) := by
  have hd : dailyForecasts w.typeError list = .ok (list.filter isNoon) :=
    dailyForecasts_ok _ _ hall
  have hstate : (run s (fetchWeather unit w city)).forecastData = some (list.filter isNoon) := by
    simp [fetchWeather, tryBlock, tryForecast, catchBlock, h, hc, hcod, hf, hfc, hl, hd, run,
      Effect.apply]
  have hshow : displayedForecast (run s (fetchWeather unit w city)) =
      (list.filter isNoon).take 5 := by
    unfold displayedForecast
    rw [hstate]
    by_cases hpos : (list.filter isNoon).length > 0
    · simp [hpos]
    · have : list.filter isNoon = [] := List.length_eq_zero.mp (by omega)
      simp [this]
  refine ⟨hstate, hshow, ?_, ?_, ?_⟩
  · rw [hshow, List.length_take]; omega
  · rw [hshow, List.length_take]
  · intro hk
    rw [hshow]
    exact List.take_of_length_le (by omega)

/-- Witness of C5: six noon entries; the view lays out the first five. -/
theorem displayedForecast_first_five_witness :
    (displayedForecast
      (run State.initial (fetchWeather "metric" (acceptedWorld sixNoons) "Paris"))).length = 5 := by
  have h := (displayedForecast_first_five "metric" (acceptedWorld sixNoons) State.initial
    "Paris" parisWeather { cod := Cod.str "200", message := none, list := some sixNoons }
    sixNoons (by decide) rfl rfl rfl rfl rfl (by decide)).2.2.2.1
  rw [h]
  decide

/-- C5 fails as stated: with six noon entries in the response, `forecastData`
holds six entries. -/
theorem forecastData_not_truncated :
    (run State.initial (fetchWeather "metric" (acceptedWorld sixNoons) "Paris")).forecastData =
      some sixNoons ∧
    sixNoons.length = 6 := by
  decide

/-- C2 fails on the code: in a state showing Paris in metric units, `toggleUnit`
sets the unit to "imperial" and re-queries Paris, but every request carries
`units=metric`, the unit before the flip; none carries `units=imperial`. -/
theorem toggleUnit_requery_old_unit (w : World) :
    (run parisShown (toggleUnit w parisShown)).unit = "imperial" ∧
    (requests (toggleUnit w parisShown) = [currentWeatherUrl "Paris" "metric"] ∨
      requests (toggleUnit w parisShown) =
        [currentWeatherUrl "Paris" "metric", forecastUrl "Paris" "metric"]) ∧
    currentWeatherUrl "Paris" "imperial" ∉ requests (toggleUnit w parisShown) ∧
    forecastUrl "Paris" "imperial" ∉ requests (toggleUnit w parisShown) := by
  have hreq : requests (toggleUnit w parisShown) =
      requests (fetchWeather "metric" w "Paris") := by
    simp [toggleUnit, parisShown, requests]
  have hunit : (run parisShown (toggleUnit w parisShown)).unit = "imperial" := by
    have hrun : ∀ (es : List Effect) (s : State),
        (∀ e ∈ es, ∀ u, e ≠ Effect.setUnit u) → (run s es).unit = s.unit := by
      intro es
      induction es with
      | nil => intro s _; rfl
      | cons e es ih =>
        intro s hes
        have h1 := ih (Effect.apply s e) (fun x hx => hes x (List.mem_cons_of_mem _ hx))
        have h2 : (Effect.apply s e).unit = s.unit := by
          cases e <;> first | rfl | exact absurd rfl (hes _ (List.mem_cons_self _ _) _)
        simp only [run, List.foldl_cons] at h1 ⊢
        rw [h1, h2]
    have hparis : ("Paris" : String) ≠ "" := by decide
    have hfw : ∀ e ∈ fetchWeather "metric" w "Paris", ∀ u, e ≠ Effect.setUnit u := by
      rcases fetchWeather_cases "metric" w "Paris" hparis with
        ⟨m, -, he⟩ | ⟨d, m, -, -, -, he⟩ | ⟨d, f, list, -, -, -, -, -, -, he⟩ <;>
      · rw [he]; intro e hmem u hu; subst hu; simp at hmem
    have : toggleUnit w parisShown =
        Effect.setUnit "imperial" :: fetchWeather "metric" w "Paris" := by
      simp [toggleUnit, parisShown, flipUnit]
    rw [this]
    show (run (Effect.apply parisShown (Effect.setUnit "imperial")) _).unit = _
    rw [hrun _ _ hfw]
    rfl
  have h1 : currentWeatherUrl "Paris" "imperial" ≠ currentWeatherUrl "Paris" "metric" := by
    decide
  have h2 : forecastUrl "Paris" "imperial" ≠ forecastUrl "Paris" "metric" := by decide
  have h3 := currentWeatherUrl_ne_forecastUrl "Paris" "imperial" "Paris" "metric"
  have h4 := currentWeatherUrl_ne_forecastUrl "Paris" "metric" "Paris" "imperial"
  refine ⟨hunit, ?_⟩
  rw [hreq]
  rcases (fetchWeather_request_shape "metric" w "Paris" (by decide)) with h | h <;>
    simp [h, h1, h2, h3, h4.symm]

theorem noon_timestamp_data (t : String) (ht : isTimestamp t = true)
    (hn : includes t "12:00:00" = true) :
    t.data = (calendarDate t).data ++ " 12:00:00".data := by
  unfold isTimestamp at ht
  split at ht
  · rename_i y1 y2 y3 y4 a m1 m2 b d1 d2 sp h1 h2 c1 n1 n2 c2 s1 s2 hdata
    simp only [Bool.and_eq_true, beq_iff_eq] at ht
    obtain ⟨⟨⟨⟨⟨⟨⟨⟨⟨⟨⟨⟨⟨⟨⟨⟨⟨⟨hy1, hy2⟩, hy3⟩, hy4⟩, ha⟩, hm1⟩, hm2⟩, hb⟩, hd1⟩, hd2⟩, hsp⟩,
      hh1⟩, hh2⟩, hc1⟩, hn1⟩, hn2⟩, hc2⟩, hs1⟩, hs2⟩ := ht
    subst ha hb hsp hc1 hc2
    unfold includes at hn
    rw [hdata] at hn
    simp [includesChars, List.isPrefixOf] at hn
    obtain ⟨rfl, rfl, rfl, rfl, rfl, rfl⟩ := hn
    simp [calendarDate, hdata]
  · cases ht

theorem noon_timestamp_eq (t u : String) (ht : isTimestamp t = true)
    (hu : isTimestamp u = true) (hnt : includes t "12:00:00" = true)
    (hnu : includes u "12:00:00" = true) (hdate : calendarDate t = calendarDate u) :
    t = u := by
  apply String.ext
  rw [noon_timestamp_data t ht hnt, noon_timestamp_data u hu hnu, hdate]

/-- On the provider's timestamps the filter does what its comment says: when
the entries of the response carry pairwise different `dt_txt` texts of the shape
`YYYY-MM-DD HH:MM:SS`, the reduction succeeds and no two of the entries it
keeps have the same calendar date. -/
theorem dailyForecasts_one_per_day (typeError : String → String)
    (list : List ForecastItem)
    (hshape : ∀ item ∈ list, ∃ t, item.dt_txt = some t ∧ isTimestamp t = true)
    (hdistinct : list.Pairwise (fun a b => a.dt_txt ≠ b.dt_txt)) :
    ∃ daily, dailyForecasts typeError list = .ok daily ∧
      daily = list.filter isNoon ∧
      daily.Pairwise (fun a b =>
        a.dt_txt.map calendarDate ≠ b.dt_txt.map calendarDate) := by
  have hall : ∀ item ∈ list, item.dt_txt.isSome = true := by
    intro item hi
    obtain ⟨t, ht, -⟩ := hshape item hi
    simp [ht]
  refine ⟨list.filter isNoon, dailyForecasts_ok typeError list hall, rfl, ?_⟩
  have hsub : (list.filter isNoon).Pairwise (fun a b => a.dt_txt ≠ b.dt_txt) :=
    hdistinct.sublist (List.filter_sublist list)
  refine hsub.imp_of_mem ?_
  intro a b ha hb hab hdate
  obtain ⟨hal, han⟩ := List.mem_filter.mp ha
  obtain ⟨hbl, hbn⟩ := List.mem_filter.mp hb
  obtain ⟨t, hat, htt⟩ := hshape a hal
  obtain ⟨u, hbu, huu⟩ := hshape b hbl
  simp only [isNoon, hat] at han
  simp only [isNoon, hbu] at hbn
  rw [hat, hbu] at hdate
  simp only [Option.map_some', Option.some.injEq] at hdate
  apply hab
  rw [hat, hbu, noon_timestamp_eq t u htt huu han hbn hdate]

/-- An instance: the three-entry scenario keeps one entry for each of its two
days. -/
theorem dailyForecasts_one_per_day_witness :
    ∃ daily, dailyForecasts sampleTypeError scenarioList = .ok daily ∧
      daily = scenarioList.filter isNoon ∧
      daily.Pairwise (fun a b =>
        a.dt_txt.map calendarDate ≠ b.dt_txt.map calendarDate) :=
  dailyForecasts_one_per_day sampleTypeError scenarioList (by decide) (by decide)

/-- C6 fails on the code: the comment on line 45 says the filter is there to
get one entry per day, but it only tests for the text "12:00:00"; a response
that lists the noon entry of one day twice, or that carries a second text with
"12:00:00" for the same day, is accepted and leaves two entries with the same
calendar date in `forecastData`. -/
theorem dailyForecasts_same_day_twice :
    ((run State.initial (fetchWeather "metric" (acceptedWorld repeatedNoon) "Paris")).forecastData
        = some repeatedNoon ∧
      repeatedNoon.map (fun item => item.dt_txt.map calendarDate) =
        [some "2024-01-01", some "2024-01-01"]) ∧
    ((run State.initial (fetchWeather "metric" (acceptedWorld sameDayVariants) "Paris")).forecastData
        = some sameDayVariants ∧
      sameDayVariants.map (fun item => item.dt_txt.map calendarDate) =
        [some "2024-01-01", some "2024-01-01"]) := by
  decide

theorem fetchWeather_final_consistent (unit : String) (w : World) (s : State)
    (city : String) (h : city ≠ "") :
    (run s (fetchWeather unit w city)).Consistent := by
  rcases fetchWeather_cases unit w city h with
    ⟨m, -, he⟩ | ⟨d, m, -, hcod, -, he⟩ | ⟨d, f, list, -, hcod, -, -, -, -, he⟩
  · simp [he, run, Effect.apply, State.Consistent, State.isLoading, State.isFailed]
  · simp [he, run, Effect.apply, State.Consistent, State.isLoading, State.isFailed, hcod]
  · simp [he, run, Effect.apply, State.Consistent, State.isLoading, State.isFailed, hcod]

theorem fetchWeather_suspended_consistent (unit : String) (w : World) (s t : State)
    (city : String) (ht : t ∈ suspended s (fetchWeather unit w city)) :
    t.Consistent := by
  by_cases h : city = ""
  · subst h
    simp [fetchWeather, suspended] at ht
  · rcases fetchWeather_cases unit w city h with
      ⟨m, -, he⟩ | ⟨d, m, -, hcod, -, he⟩ | ⟨d, f, list, -, hcod, -, -, -, -, he⟩
    · simp [he, suspended, Effect.apply] at ht
      subst ht
      simp [State.Consistent]
    · simp [he, suspended, Effect.apply] at ht
      rcases ht with ht | ht <;> subst ht <;> simp [State.Consistent, hcod]
    · simp [he, suspended, Effect.apply] at ht
      rcases ht with ht | ht <;> subst ht <;> simp [State.Consistent, hcod]

theorem action_final_consistent (s : State) (a : Action) (hs : s.Consistent) :
    (run s (a.effects s)).Consistent := by
  cases a with
  | setCity c => exact hs
  | fetchWeather w city =>
    by_cases h : city = ""
    · subst h
      simpa [Action.effects, fetchWeather, run] using hs
    · exact fetchWeather_final_consistent _ _ _ _ h
  | toggleUnit w =>
    simp only [Action.effects, toggleUnit]
    split
    · by_cases h : s.city = ""
      · simp only [h, fetchWeather, if_true]
        exact hs
      · exact fetchWeather_final_consistent s.unit w (Effect.apply s _) s.city h
    · exact hs

theorem action_suspended_consistent (s t : State) (a : Action)
    (ht : t ∈ suspended s (a.effects s)) : t.Consistent := by
  cases a with
  | setCity c => simp [Action.effects, suspended] at ht
  | fetchWeather w city => exact fetchWeather_suspended_consistent _ _ _ _ _ ht
  | toggleUnit w =>
    simp only [Action.effects, toggleUnit, suspended] at ht
    split at ht
    · exact fetchWeather_suspended_consistent _ _ _ _ _ ht
    · simp [suspended] at ht

theorem untilFetch_none (es : List Effect) (h : (untilFetch es).2 = none) :
    (untilFetch es).1 = es := by
  induction es with
  | nil => rfl
  | cons e es ih =>
    cases e <;> simp_all [untilFetch]

theorem untilFetch_some (es left : List Effect) (h : (untilFetch es).2 = some left) :
    ∃ pre url, es = pre ++ Effect.fetch url :: left ∧
      (untilFetch es).1 = pre ++ [Effect.fetch url] := by
  induction es with
  | nil => simp [untilFetch] at h
  | cons e es ih =>
    by_cases hf : ∃ url, e = Effect.fetch url
    · obtain ⟨url, rfl⟩ := hf
      simp only [untilFetch, Option.some.injEq] at h
      subst h
      exact ⟨[], url, rfl, rfl⟩
    · have hu : untilFetch (e :: es) = (e :: (untilFetch es).1, (untilFetch es).2) := by
        cases e <;> first | rfl | exact absurd ⟨_, rfl⟩ hf
      rw [hu] at h ⊢
      obtain ⟨pre, url, h1, h2⟩ := ih h
      exact ⟨e :: pre, url, by simp [h1], by simp [h2]⟩

theorem run_fetch_last (s : State) (pre : List Effect) (url : String) :
    run s (pre ++ [Effect.fetch url]) = run s pre := by
  simp [run, List.foldl_append, Effect.apply]

theorem mem_suspended (s : State) (pre left : List Effect) (url : String) :
    run s pre ∈ suspended s (pre ++ Effect.fetch url :: left) := by
  rw [suspended_append]
  simp [suspended]

theorem sequential_inOneCall (c : Config) (h : Sequential c) : c.InOneCall := by
  induction h with
  | initial =>
    exact Or.inl ⟨rfl, by
      simp [Config.initial, State.Consistent, State.initial, State.isLoading, State.isFailed]⟩
  | start c a _ hp ih =>
    have hs : c.state.Consistent := by
      rcases ih with ⟨-, hs⟩ | ⟨s, a2, pre, url, left, -, -, -, hpend⟩
      · exact hs
      · rw [hp] at hpend; cases hpend
    unfold Config.start Config.advance
    cases hu : (untilFetch (a.effects c.state)).2 with
    | none =>
      refine Or.inl ⟨by simp [hp], ?_⟩
      simp only [untilFetch_none _ hu]
      exact action_final_consistent _ _ hs
    | some left =>
      obtain ⟨pre, url, h1, h2⟩ := untilFetch_some _ _ hu
      refine Or.inr ⟨c.state, a, pre, url, left, hs, h1, ?_, by simp [hp]⟩
      simp only [h2, run_fetch_last]
  | resume c i _ ih =>
    unfold Config.resume
    cases hget : c.pending.get? i with
    | none => exact ih
    | some left =>
      rcases ih with ⟨hp, -⟩ | ⟨s, a, pre, url, left0, hs, heff, hstate, hpend⟩
      · rw [hp] at hget; simp at hget
      · rw [hpend] at hget
        have hi : i = 0 := by
          cases i with
          | zero => rfl
          | succ n => simp at hget
        subst hi
        simp only [List.get?_cons_zero, Option.some.injEq] at hget
        subst hget
        simp only [hpend, List.eraseIdx_cons_zero]
        unfold Config.advance
        cases hu : (untilFetch left0).2 with
        | none =>
          refine Or.inl ⟨rfl, ?_⟩
          simp only [untilFetch_none _ hu, hstate]
          have : run (run s pre) left0 = run s (a.effects s) := by
            rw [heff, run_append]
            simp [run, Effect.apply]
          rw [this]
          exact action_final_consistent _ _ hs
        | some left2 =>
          obtain ⟨pre2, url2, h1, h2⟩ := untilFetch_some _ _ hu
          refine Or.inr ⟨s, a, pre ++ Effect.fetch url :: pre2, url2, left2, hs, ?_, ?_, rfl⟩
          · rw [heff, h1]; simp
          · simp only [h2, run_fetch_last, hstate]
            rw [run_append]
            simp [run, Effect.apply]

theorem inOneCall_consistent (c : Config) (h : c.InOneCall) : c.state.Consistent := by
  rcases h with ⟨-, hs⟩ | ⟨s, a, pre, url, left, -, heff, hstate, -⟩
  · exact hs
  · apply action_suspended_consistent s _ a
    rw [hstate, heff]
    exact mem_suspended s pre left url

theorem run_weather_accepted (es : List Effect) (s : State)
    (hs : ∀ d, s.weatherData = some d → d.cod = Cod.num 200)
    (hes : ∀ d, Effect.setWeatherData (some d) ∈ es → d.cod = Cod.num 200) :
    ∀ d, (run s es).weatherData = some d → d.cod = Cod.num 200 := by
  induction es generalizing s with
  | nil => exact hs
  | cons e es ih =>
    have hrest : ∀ d, Effect.setWeatherData (some d) ∈ es → d.cod = Cod.num 200 :=
      fun d hd => hes d (List.mem_cons_of_mem _ hd)
    have hstep : ∀ d, (Effect.apply s e).weatherData = some d → d.cod = Cod.num 200 := by
      intro d hd
      cases e
      case setWeatherData v =>
        simp only [Effect.apply] at hd
        subst hd
        exact hes d (List.mem_cons_self _ _)
      all_goals exact hs d hd
    exact ih (Effect.apply s e) hstep hrest

theorem fetchWeather_stores_accepted (unit : String) (w : World) (city : String)
    (d : WeatherJson) (h : Effect.setWeatherData (some d) ∈ fetchWeather unit w city) :
    d.cod = Cod.num 200 := by
  by_cases hc : city = ""
  · subst hc
    simp [fetchWeather] at h
  · rcases fetchWeather_cases unit w city hc with
      ⟨m, -, he⟩ | ⟨d2, m, -, hcod, -, he⟩ | ⟨d2, f, list, -, hcod, -, -, -, -, he⟩
    · simp [he] at h
    · simp [he] at h
      subst h
      exact hcod
    · simp [he] at h
      subst h
      exact hcod

theorem action_stores_accepted (s : State) (a : Action) (d : WeatherJson)
    (h : Effect.setWeatherData (some d) ∈ a.effects s) : d.cod = Cod.num 200 := by
  cases a with
  | setCity c => simp [Action.effects] at h
  | fetchWeather w city => exact fetchWeather_stores_accepted _ _ _ _ h
  | toggleUnit w =>
    simp only [Action.effects, toggleUnit, List.mem_cons] at h
    rcases h with h | h
    · cases h
    · split at h
      · exact fetchWeather_stores_accepted _ _ _ _ h
      · simp at h

theorem advance_weatherAccepted (s : State) (es : List Effect) (others : List (List Effect))
    (hs : ∀ d, s.weatherData = some d → d.cod = Cod.num 200)
    (hes : ∀ d, Effect.setWeatherData (some d) ∈ es → d.cod = Cod.num 200)
    (ho : ∀ left ∈ others, ∀ d, Effect.setWeatherData (some d) ∈ left → d.cod = Cod.num 200) :
    (Config.advance s es others).WeatherAccepted := by
  unfold Config.advance
  cases hu : (untilFetch es).2 with
  | none =>
    rw [untilFetch_none _ hu]
    exact ⟨run_weather_accepted es s hs hes, ho⟩
  | some left =>
    obtain ⟨pre, url, h1, h2⟩ := untilFetch_some _ _ hu
    have hpre : ∀ d, Effect.setWeatherData (some d) ∈ pre → d.cod = Cod.num 200 := by
      intro d hd
      exact hes d (by rw [h1]; exact List.mem_append_left _ hd)
    have hleft : ∀ d, Effect.setWeatherData (some d) ∈ left → d.cod = Cod.num 200 := by
      intro d hd
      exact hes d (by rw [h1]; exact List.mem_append_right _ (List.mem_cons_of_mem _ hd))
    refine ⟨?_, ?_⟩
    · simp only [h2, run_fetch_last]
      exact run_weather_accepted pre s hs hpre
    · intro k hk
      rcases List.mem_cons.mp hk with hk | hk
      · subst hk; exact hleft
      · exact ho k hk

theorem reachable_weatherAccepted (c : Config) (h : Reachable c) : c.WeatherAccepted := by
  induction h with
  | initial =>
    exact ⟨by simp [Config.initial, State.initial], by simp [Config.initial]⟩
  | start c a _ ih =>
    exact advance_weatherAccepted _ _ _ ih.1 (fun d hd => action_stores_accepted _ _ d hd) ih.2
  | resume c i _ ih =>
    unfold Config.resume
    cases hget : c.pending.get? i with
    | none => exact ih
    | some left =>
      refine advance_weatherAccepted _ _ _ ih.1 (ih.2 left (List.get?_mem hget)) ?_
      intro k hk
      exact ih.2 k (List.mem_of_mem_eraseIdx hk)

theorem reachable_of_sequential (c : Config) (h : Sequential c) : Reachable c := by
  induction h with
  | initial => exact Reachable.initial
  | start c a _ _ ih => exact Reachable.start c a ih
  | resume c i _ ih => exact Reachable.resume c i ih

theorem sequential_awaitingForecast : Sequential awaitingForecast :=
  Sequential.resume _ 0
    (Sequential.start parisTyped (Action.fetchWeather forecastRejectedWorld "Paris")
      (Sequential.start Config.initial (Action.setCity "Paris") Sequential.initial rfl)
      (by decide))

theorem sequential_failedWithWeather : Sequential failedWithWeather :=
  Sequential.resume _ 0 sequential_awaitingForecast

theorem reachable_overlapped : Reachable overlapped :=
  Reachable.resume _ 0 (Reachable.resume _ 0 (Reachable.start _ _ (Reachable.resume _ 0
    (Reachable.start _ _ (Reachable.start _ _ Reachable.initial)))))

/-- C1, as the code has it: in every configuration the controller can reach,
overlapping calls included, `weatherData`, when present, holds an accepted
current-conditions response (`cod` 200).  When no action is started while a call
is in flight, then whenever the outcome is Loading or Failed, `forecastData` is
absent.  A query that runs from the configuration's state without another call
in between leaves both results absent, while it waits and at its end, when its
current-conditions response is not accepted; when that response is accepted and
the forecast is not usable (rejected, failed, or not reducible) it ends Failed
with `weatherData` holding the current-conditions response and `forecastData`
absent. -/
theorem reachable_outcome_invariant (c : Config) (h : Reachable c) :
    (∀ d, c.state.weatherData = some d → d.cod = Cod.num 200) ∧
    (Sequential c → (c.state.isLoading ∨ c.state.isFailed) →
      c.state.forecastData = none ∧
      (c.state.weatherData = none ∨
        ∃ d, c.state.weatherData = some d ∧ d.cod = Cod.num 200)) ∧
    (∀ (unit : String) (w : World) (city : String) (t : State), city ≠ "" →
      (¬ ∃ d, w.current = .parsed d ∧ d.cod = Cod.num 200) →
      (t = run c.state (fetchWeather unit w city) ∨
        t ∈ suspended c.state (fetchWeather unit w city)) →
      t.weatherData = none ∧ t.forecastData = none) ∧
    (∀ (unit : String) (w : World) (city : String) (d : WeatherJson), city ≠ "" →
      w.current = .parsed d → d.cod = Cod.num 200 → ¬ ForecastUsable w →
      (run c.state (fetchWeather unit w city)).isFailed ∧
      (run c.state (fetchWeather unit w city)).weatherData = some d ∧
      (run c.state (fetchWeather unit w city)).forecastData = none) := by
  refine ⟨(reachable_weatherAccepted c h).1, ?_, ?_, ?_⟩
  · intro hseq hlf
    have hc := inOneCall_consistent c (sequential_inOneCall c hseq)
    refine ⟨hc.1 hlf, ?_⟩
    cases hw : c.state.weatherData with
    | none => exact Or.inl rfl
    | some d => exact Or.inr ⟨d, rfl, hc.2 d hw⟩
  · intro unit w city t hcity hnot ht
    rcases fetchWeather_cases unit w city hcity with
      ⟨m, -, he⟩ | ⟨d, m, hc, hcod, -, -⟩ | ⟨d, f, list, hc, hcod, -, -, -, -, -⟩
    · simp [he, run, suspended, Effect.apply] at ht
      rcases ht with ht | ht <;> subst ht <;> simp
    · exact absurd ⟨d, hc, hcod⟩ hnot
    · exact absurd ⟨d, hc, hcod⟩ hnot
  · intro unit w city d hcity hcur hcod hnot
    rcases fetchWeather_cases unit w city hcity with
      ⟨m, hna, -⟩ | ⟨d2, m, hc2, -, -, he⟩ | ⟨d2, f, list, -, -, hf, hfc, hl, hall, -⟩
    · exact absurd ⟨d, hcur, hcod⟩ hna
    · rw [hcur] at hc2
      cases hc2
      simp [he, run, Effect.apply, State.isFailed]
    · exact absurd ⟨f, list, hf, hfc, hl, hall⟩ hnot

/-- Witness of C1: a query for Paris, without overlap, waiting for its
forecast. -/
theorem outcome_invariant_witness :
    Reachable awaitingForecast ∧ Sequential awaitingForecast ∧
    awaitingForecast.state.isLoading ∧
    awaitingForecast.state.forecastData = none ∧
    (∀ d, awaitingForecast.state.weatherData = some d → d.cod = Cod.num 200) :=
  ⟨reachable_of_sequential _ sequential_awaitingForecast, sequential_awaitingForecast,
   by unfold State.isLoading; decide,
   ((reachable_outcome_invariant awaitingForecast
      (reachable_of_sequential _ sequential_awaitingForecast)).2.1
      sequential_awaitingForecast (Or.inl (by unfold State.isLoading; decide))).1,
   (reachable_outcome_invariant awaitingForecast
      (reachable_of_sequential _ sequential_awaitingForecast)).1⟩

/-- C1 fails as stated: after a query whose current-conditions response is
accepted and whose forecast response is rejected the outcome is Failed and
`weatherData` is present; while that query waits for the forecast the outcome is
Loading and `weatherData` is present; and when a second query is submitted while
the first waits for its forecast, and is rejected, the forecast of the first
arrives next to the error of the second: Failed with `forecastData` present. -/
theorem outcome_invariant_broken :
    (Sequential failedWithWeather ∧ Reachable failedWithWeather ∧
      failedWithWeather.state.isFailed ∧
      failedWithWeather.state.weatherData = some parisWeather) ∧
    (Sequential awaitingForecast ∧ Reachable awaitingForecast ∧
      awaitingForecast.state.isLoading ∧
      awaitingForecast.state.weatherData = some parisWeather) ∧
    (Reachable overlapped ∧ overlapped.state.isFailed ∧
      overlapped.state.forecastData =
        some [entryAt 1704110400 "2024-01-01 12:00:00",
              entryAt 1704196800 "2024-01-02 12:00:00"]) :=
  ⟨⟨sequential_failedWithWeather, reachable_of_sequential _ sequential_failedWithWeather,
    by unfold State.isFailed; decide, by decide⟩,
   ⟨sequential_awaitingForecast, reachable_of_sequential _ sequential_awaitingForecast,
    by unfold State.isLoading; decide, by decide⟩,
   ⟨reachable_overlapped, by unfold State.isFailed; decide, by decide⟩⟩

end WeatherApp
